import Mathlib

/-!
Verification of `pyowm/utils/converter.py`: time conversions between UNIX
epoch seconds, ISO8601 strings (fixed format `YYYY-MM-DD HH:MM:SS+00`) and
calendar time values, and temperature conversions from Kelvin to Celsius
and Fahrenheit.

The module's own code dispatches on runtime types, validates inputs and
delegates the calendar arithmetic to the Python standard library
(`datetime.utcfromtimestamp`, `datetime.strptime`, `strftime`,
`calendar.timegm`).  The standard-library behaviour is embedded here
faithfully: the proleptic-Gregorian ordinal arithmetic follows CPython's
`datetime` module (`_ymd2ord` / `_ord2ymd` / `_is_leap`), `timegm` follows
`calendar.timegm`, and the fixed-format `strptime` follows the regular
expressions CPython's `_strptime` builds for the directives
`%Y %m %d %H %M %S`.  Python's two historical integer kinds (`int`/`long`)
collapse to one integer type; Python floats are idealised as rationals.
-/

namespace Pyowm

/-- Kinds of Python exceptions raised by the converter module: `TypeError`
for an argument of the wrong runtime type and `ValueError` for an argument
of the right type whose value is invalid. -/
inductive PyErr where
  | typeError  : PyErr
  | valueError : PyErr
deriving DecidableEq, Repr

/-- A Python `datetime.datetime` value: a decomposed UTC calendar time.
`timetuple()` exposes the fields down to whole seconds only; the
`microsecond` field is not part of the time tuple. -/
structure Datetime where
  year : Nat
  month : Nat
  day : Nat
  hour : Nat
  minute : Nat
  second : Nat
  microsecond : Nat
deriving DecidableEq, Repr

/-- The runtime values the converter's dynamic type checks dispatch on:
integers (`int`/`long` collapsed), floats (idealised as rationals),
strings and `datetime.datetime` objects. -/
inductive PyVal where
  | int : Int → PyVal
  | float : ℚ → PyVal
  | str : String → PyVal
  | datetime : Datetime → PyVal
deriving DecidableEq

/-! ### Proleptic-Gregorian calendar arithmetic (CPython `datetime` internals) -/

/-- Gregorian leap-year test, as CPython `datetime._is_leap`:
`year % 4 == 0 and (year % 100 != 0 or year % 400 == 0)`. -/
def isLeap (y : Nat) : Bool :=
  y % 4 == 0 && (y % 100 != 0 || y % 400 == 0)

/-- Length of month `m` (1-12), as CPython `datetime._days_in_month`:
the `_DAYS_IN_MONTH` table with February adjusted in leap years. -/
def daysInMonth (leap : Bool) (m : Nat) : Nat :=
  match m with
  | 1 => 31
  | 2 => if leap then 29 else 28
  | 3 => 31
  | 4 => 30
  | 5 => 31
  | 6 => 30
  | 7 => 31
  | 8 => 31
  | 9 => 30
  | 10 => 31
  | 11 => 30
  | 12 => 31
  | _ => 0

/-- Days in the year strictly before month `m` (1-12), as CPython
`datetime._days_before_month`: the `_DAYS_BEFORE_MONTH` table plus one
for months after February in a leap year. -/
def daysBeforeMonth (leap : Bool) (m : Nat) : Nat :=
  (match m with
   | 1 => 0
   | 2 => 31
   | 3 => 59
   | 4 => 90
   | 5 => 120
   | 6 => 151
   | 7 => 181
   | 8 => 212
   | 9 => 243
   | 10 => 273
   | 11 => 304
   | 12 => 334
   | _ => 0)
  + (if 2 < m ∧ leap then 1 else 0)

/-- Days strictly before January 1 of `year`, as CPython
`datetime._days_before_year`: `y*365 + y//4 - y//100 + y//400` for
`y = year - 1`. -/
def daysBeforeYear (year : Nat) : Nat :=
  (year - 1) * 365 + (year - 1) / 4 - (year - 1) / 100 + (year - 1) / 400

/-- Proleptic-Gregorian ordinal of a date (January 1 of year 1 is day 1),
as CPython `datetime._ymd2ord`. -/
def ymd2ord (y m d : Nat) : Nat :=
  daysBeforeYear y + daysBeforeMonth (isLeap y) m + d

/-- The month-correction loop at the end of CPython `datetime._ord2ymd`:
starting from the guessed month, decrement while the days preceding the
month exceed the remaining day count `n`, then subtract the preceding
days.  Returns the month together with the remaining zero-based day. -/
def monthFix (leap : Bool) (n : Nat) : Nat → Nat × Nat
  | 0 => (0, n)
  | m + 1 =>
    if daysBeforeMonth leap (m + 1) > n then monthFix leap n m
    else (m + 1, n - daysBeforeMonth leap (m + 1))

/-- Date from a proleptic-Gregorian ordinal, as CPython
`datetime._ord2ymd`: divide out 400-year, 100-year, 4-year and 1-year
cycles, handle the last day of a 4-year or 400-year cycle specially, then
locate the month from a guess `(n + 50) >> 5` with a correction loop. -/
def ord2ymd (ordinal : Nat) : Nat × Nat × Nat :=
  let n := ordinal - 1
  let n400 := n / 146097
  let r400 := n % 146097
  let n100 := r400 / 36524
  let r100 := r400 % 36524
  let n4 := r100 / 1461
  let r4 := r100 % 1461
  let n1 := r4 / 365
  let rf := r4 % 365
  let year := n400 * 400 + 1 + n100 * 100 + n4 * 4 + n1
  if n1 == 4 || n100 == 4 then
    (year - 1, 12, 31)
  else
    let leapyear := n1 == 3 && (n4 != 24 || n100 == 3)
    let guess := (rf + 50) >>> 5
    let mr := monthFix leapyear rf guess
    (year, mr.1, mr.2 + 1)

/-- Ordinal of 1970-01-01, as CPython `datetime`'s `_EPOCH` /
`calendar._EPOCH_ORD`. -/
def EPOCH_ORD : Nat := 719163

/-- Ordinal of 9999-12-31, the largest date CPython `datetime` represents
(`date.max.toordinal()`). -/
def MAX_ORD : Nat := 3652059

/-- Model of `datetime.utcfromtimestamp` on a non-negative integer
timestamp: split into days and seconds-of-day, convert the day count to a
date via the ordinal arithmetic, decompose the remainder into
hour/minute/second.  `none` models the `ValueError`/`OverflowError`
CPython raises when the resulting year exceeds 9999. -/
def utcfromtimestamp (t : Nat) : Option Datetime :=
  let days := t / 86400
  let rem := t % 86400
  let ordinal := EPOCH_ORD + days
  if ordinal ≤ MAX_ORD then
    let ymd := ord2ymd ordinal
    some ⟨ymd.1, ymd.2.1, ymd.2.2, rem / 3600, rem % 3600 / 60, rem % 60, 0⟩
  else none

/-- Model of `calendar.timegm` applied to a `datetime` time tuple:
`days = date(year, month, 1).toordinal() - EPOCH_ORD + day - 1`, then
`((days*24 + hour)*60 + minute)*60 + second`.  The result is a signed
integer (dates before 1970 give negative epochs).  The time tuple carries
no sub-second field, so the microsecond never enters. -/
def timegm (y mo d h mi s : Nat) : Int :=
  let days : Int := (ymd2ord y mo 1 : Int) - (EPOCH_ORD : Int) + (d : Int) - 1
  ((days * 24 + (h : Int)) * 60 + (mi : Int)) * 60 + (s : Int)

/-! ### Fixed-format string formatting and parsing

`UNIXtime_to_ISO8601` formats with `strftime('%Y-%m-%d %H:%M:%S+00')`;
`ISO8601_to_UNIXtime` parses with `strptime(iso, '%Y-%m-%d %H:%M:%S+00')`.
CPython's `_strptime` compiles the format into a regular expression:
`%Y` becomes `\d\d\d\d`, `%m` becomes `1[0-2]|0[1-9]|[1-9]`, `%d` becomes
`3[01]|[12]\d|0[1-9]|[1-9]| [1-9]` (the trailing space-padded alternative
exists to make ANSI C's `%c` work), `%H` becomes `2[0-3]|[0-1]\d|\d`,
`%M`/`%S` become `[0-5]\d|\d` (`%S` also lists `6[0-1]` first, but the
`datetime` constructor rejects a 60th second, so both paths end in
`ValueError` and the alternative is observationally inert here), and any
whitespace run in the format — the single space of this format — becomes
`\s+`, one or more whitespace characters.  The whole input must be
consumed, and the matched fields are then fed to the `datetime`
constructor, which checks `1 <= year` and
`day <= days_in_month(year, month)`.  Because every two-digit alternative
is followed in the format by a non-digit literal, and the greedy `\s+` is
followed by a digit class, the regex backtracking never revisits a
successful two-digit or whitespace match, so a first-match sequential
parser with maximal whitespace munch is faithful. -/

/-- Numeric value of a decimal digit character (`'0'` to `'9'`). -/
def digitVal (c : Char) : Nat := c.toNat - 48

/-- Two-digit zero-padded decimal rendering, as `strftime`'s `%m`, `%d`,
`%H`, `%M`, `%S` on values below 100. -/
def pad2 (n : Nat) : List Char :=
  [Nat.digitChar (n / 10 % 10), Nat.digitChar (n % 10)]

/-- Four-digit zero-padded decimal rendering, as `strftime`'s `%Y` on
years 1000-9999 (every year reachable from a non-negative epoch). -/
def pad4 (n : Nat) : List Char :=
  [Nat.digitChar (n / 1000 % 10), Nat.digitChar (n / 100 % 10),
   Nat.digitChar (n / 10 % 10), Nat.digitChar (n % 10)]

/-- `strftime('%Y-%m-%d %H:%M:%S+00')` on a `datetime`. -/
def strftimeISO (d : Datetime) : String :=
  ⟨pad4 d.year ++ '-' :: (pad2 d.month ++ '-' :: (pad2 d.day ++ ' ' ::
    (pad2 d.hour ++ ':' :: (pad2 d.minute ++ ':' ::
      (pad2 d.second ++ ['+', '0', '0'])))))⟩

/-- `%Y`: exactly four decimal digits. -/
def parseYear4 : List Char → Option (Nat × List Char)
  | a :: b :: c :: d :: rest =>
    if a.isDigit ∧ b.isDigit ∧ c.isDigit ∧ d.isDigit then
      some (1000 * digitVal a + 100 * digitVal b + 10 * digitVal c + digitVal d, rest)
    else none
  | _ => none

/-- A literal character of the format. -/
def expectChar (c : Char) : List Char → Option (List Char)
  | a :: rest => if a = c then some rest else none
  | [] => none

/-- The characters Python's `re` module treats as whitespace (`\s` in a
`str` pattern): exactly the code points `Py_UNICODE_ISSPACE` accepts. -/
def isPySpace (c : Char) : Bool :=
  c.toNat == 0x09 || c.toNat == 0x0A || c.toNat == 0x0B || c.toNat == 0x0C ||
  c.toNat == 0x0D || (0x1C ≤ c.toNat && c.toNat ≤ 0x1F) || c.toNat == 0x20 ||
  c.toNat == 0x85 || c.toNat == 0xA0 || c.toNat == 0x1680 ||
  (0x2000 ≤ c.toNat && c.toNat ≤ 0x200A) || c.toNat == 0x2028 ||
  c.toNat == 0x2029 || c.toNat == 0x202F || c.toNat == 0x205F ||
  c.toNat == 0x3000

/-- Drop a run of whitespace characters. -/
def munchSpaces : List Char → List Char
  | [] => []
  | c :: rest => if isPySpace c then munchSpaces rest else c :: rest

/-- The format's literal whitespace: `_strptime` replaces each whitespace
run in the format with `\s+`, matching one or more whitespace characters.
The match is greedy; the token after it in this format is a digit class,
so maximal munch is exact. -/
def parseSpaces : List Char → Option (List Char)
  | [] => none
  | c :: rest => if isPySpace c then some (munchSpaces rest) else none

/-- `%m`: the regex `1[0-2]|0[1-9]|[1-9]`, alternatives in order. -/
def parseMonth2 : List Char → Option (Nat × List Char)
  | [] => none
  | a :: rest =>
    match rest with
    | b :: rest2 =>
      if a = '1' ∧ '0' ≤ b ∧ b ≤ '2' then some (10 + digitVal b, rest2)
      else if a = '0' ∧ '1' ≤ b ∧ b ≤ '9' then some (digitVal b, rest2)
      else if '1' ≤ a ∧ a ≤ '9' then some (digitVal a, rest)
      else none
    | [] => if '1' ≤ a ∧ a ≤ '9' then some (digitVal a, []) else none

/-- `%d`: the regex `3[01]|[12]\d|0[1-9]|[1-9]| [1-9]`, alternatives in
order; the last, space-padded alternative is CPython's ANSI-C `%c`
compatibility case. -/
def parseDay2 : List Char → Option (Nat × List Char)
  | [] => none
  | a :: rest =>
    match rest with
    | b :: rest2 =>
      if a = '3' ∧ '0' ≤ b ∧ b ≤ '1' then some (30 + digitVal b, rest2)
      else if ('1' ≤ a ∧ a ≤ '2') ∧ b.isDigit then
        some (10 * digitVal a + digitVal b, rest2)
      else if a = '0' ∧ '1' ≤ b ∧ b ≤ '9' then some (digitVal b, rest2)
      else if '1' ≤ a ∧ a ≤ '9' then some (digitVal a, rest)
      else if a = ' ' ∧ '1' ≤ b ∧ b ≤ '9' then some (digitVal b, rest2)
      else none
    | [] => if '1' ≤ a ∧ a ≤ '9' then some (digitVal a, []) else none

/-- `%H`: the regex `2[0-3]|[0-1]\d|\d`, alternatives in order. -/
def parseHour2 : List Char → Option (Nat × List Char)
  | [] => none
  | a :: rest =>
    match rest with
    | b :: rest2 =>
      if a = '2' ∧ '0' ≤ b ∧ b ≤ '3' then some (20 + digitVal b, rest2)
      else if ('0' ≤ a ∧ a ≤ '1') ∧ b.isDigit then
        some (10 * digitVal a + digitVal b, rest2)
      else if a.isDigit then some (digitVal a, rest)
      else none
    | [] => if a.isDigit then some (digitVal a, []) else none

/-- `%M` and `%S`: the regex `[0-5]\d|\d`, alternatives in order. -/
def parseMinSec : List Char → Option (Nat × List Char)
  | [] => none
  | a :: rest =>
    match rest with
    | b :: rest2 =>
      if ('0' ≤ a ∧ a ≤ '5') ∧ b.isDigit then
        some (10 * digitVal a + digitVal b, rest2)
      else if a.isDigit then some (digitVal a, rest)
      else none
    | [] => if a.isDigit then some (digitVal a, []) else none

/-- Model of `datetime.strptime(s, '%Y-%m-%d %H:%M:%S+00')`: run the
compiled regex over the whole input, then build the `datetime`, which
validates the year lower bound and the day against the month length.
`none` models the `ValueError` the converter catches and re-raises. -/
def strptimeISO (s : String) : Option Datetime :=
  match parseYear4 s.data with
  | none => none
  | some yr =>
  match expectChar '-' yr.2 with
  | none => none
  | some r2 =>
  match parseMonth2 r2 with
  | none => none
  | some mor =>
  match expectChar '-' mor.2 with
  | none => none
  | some r4 =>
  match parseDay2 r4 with
  | none => none
  | some dr =>
  match parseSpaces dr.2 with
  | none => none
  | some r6 =>
  match parseHour2 r6 with
  | none => none
  | some hr =>
  match expectChar ':' hr.2 with
  | none => none
  | some r8 =>
  match parseMinSec r8 with
  | none => none
  | some mir =>
  match expectChar ':' mir.2 with
  | none => none
  | some r10 =>
  match parseMinSec r10 with
  | none => none
  | some secr =>
  match expectChar '+' secr.2 with
  | none => none
  | some r12 =>
  match expectChar '0' r12 with
  | none => none
  | some r13 =>
  match expectChar '0' r13 with
  | none => none
  | some r14 =>
  if r14 = [] ∧ 1 ≤ yr.1 ∧ dr.1 ≤ daysInMonth (isLeap yr.1) mor.1 then
    some ⟨yr.1, mor.1, dr.1, hr.1, mir.1, secr.1, 0⟩
  else none

/-! ### Rounding model

The temperature functions return `float("{0:.2f}".format(x))`.  Under the
rational idealisation of Python floats, `"%.2f"` formatting rounds the
value half-to-even at the second decimal and `float` reads the decimal
string back exactly, so the composite maps `x` to
`round_half_even(100*x) / 100`. -/

/-- Round a rational to the nearest integer, ties to even (the rounding
of `"%.2f"` formatting and of Python 3 `round`). -/
def roundHalfEven (q : ℚ) : ℤ :=
  let f := ⌊q⌋
  if q - f < 1 / 2 then f
  else if q - f > 1 / 2 then f + 1
  else if 2 ∣ f then f else f + 1

/-- Model of `float("{0:.2f}".format(x))` on the rational idealisation of
a Python float `x`. -/
def floatFormat2 (x : ℚ) : ℚ := (roundHalfEven (100 * x) : ℚ) / 100

/-- Modelled from the spec: Python's `round(x, 2)` (round half to even at
the second decimal), the reference the spec compares the temperature
functions against. -/
def pyRound2 (x : ℚ) : ℚ := (roundHalfEven (x * 100) : ℚ) / 100

/-! ### The converter module itself (`pyowm/utils/converter.py`) -/

/-- `__KELVIN_OFFSET__ = 273.15`. -/
def KELVIN_OFFSET : ℚ := 273.15

/-- `__FAHRENHEIT_OFFSET = 32.0`. -/
def FAHRENHEIT_OFFSET : ℚ := 32.0

/-- `__FAHRENHEIT_DEGREE_SCALE = 1.8`. -/
def FAHRENHEIT_DEGREE_SCALE : ℚ := 1.8

/-- The numeric value of a `PyVal` when `isinstance(v, (long, int, float))`
holds, `none` otherwise. -/
def numVal : PyVal → Option ℚ
  | .int n => some (n : ℚ)
  | .float x => some x
  | _ => none

/-- `UNIXtime_to_ISO8601(unixtime)`: on an integer, reject negatives with
`ValueError`, then `datetime.utcfromtimestamp(unixtime).strftime('%Y-%m-%d
%H:%M:%S+00')`; any other runtime type raises `TypeError`. -/
def UNIXtime_to_ISO8601 : PyVal → Except PyErr String
  | .int t =>
    if t < 0 then .error .valueError
    else
      match utcfromtimestamp t.toNat with
      | some d => .ok (strftimeISO d)
      | none => .error .valueError
  | _ => .error .typeError

/-- `datetime_to_UNIXtime(date)`: on a `datetime`, return
`timegm(date.timetuple())`; any other runtime type raises `TypeError`. -/
def datetime_to_UNIXtime : PyVal → Except PyErr Int
  | .datetime d => .ok (timegm d.year d.month d.day d.hour d.minute d.second)
  | _ => .error .typeError

/-- `ISO8601_to_UNIXtime(iso)`: on a string, parse with
`datetime.strptime(iso, '%Y-%m-%d %H:%M:%S+00')` (re-raising a parse
failure as `ValueError`) and delegate to `datetime_to_UNIXtime`; any
other runtime type raises `TypeError`. -/
def ISO8601_to_UNIXtime : PyVal → Except PyErr Int
  | .str s =>
    match strptimeISO s with
    | some d => datetime_to_UNIXtime (.datetime d)
    | none => .error .valueError
  | _ => .error .typeError

/-- `to_UNIXtime(timeobject)`: integers pass through unchanged,
`datetime` values go to `datetime_to_UNIXtime`, strings go to
`ISO8601_to_UNIXtime`, anything else raises `TypeError`. -/
def to_UNIXtime : PyVal → Except PyErr Int
  | .int n => .ok n
  | .datetime d => datetime_to_UNIXtime (.datetime d)
  | .str s => ISO8601_to_UNIXtime (.str s)
  | .float _ => .error .typeError

/-- `kelvin_to_celsius(kelvintemp)`: on a numeric value, reject negatives
with `ValueError`, else return `float("{0:.2f}".format(k - 273.15))`;
non-numeric runtime types raise `TypeError`. -/
def kelvin_to_celsius (v : PyVal) : Except PyErr ℚ :=
  match numVal v with
  | some k =>
    if k < 0 then .error .valueError
    else .ok (floatFormat2 (k - KELVIN_OFFSET))
  | none => .error .typeError

/-- `kelvin_to_fahrenheit(kelvintemp)`: on a numeric value, reject
negatives with `ValueError`, else return
`float("{0:.2f}".format((k - 273.15)*1.8 + 32.0))`; non-numeric runtime
types raise `TypeError`. -/
def kelvin_to_fahrenheit (v : PyVal) : Except PyErr ℚ :=
  match numVal v with
  | some k =>
    if k < 0 then .error .valueError
    else .ok (floatFormat2 ((k - KELVIN_OFFSET) * FAHRENHEIT_DEGREE_SCALE + FAHRENHEIT_OFFSET))
  | none => .error .typeError

/-! ### Helper lemmas: the calendar round-trip -/

/-- No month is longer than 31 days. -/
theorem daysInMonth_le_31 (l : Bool) (m : Nat) : daysInMonth l m ≤ 31 := by
  unfold daysInMonth
  split <;> try norm_num
  split <;> norm_num

/-- `Nat.digitChar` of a digit is a decimal digit character, and
`digitVal` recovers the digit. -/
theorem digitChar_spec : ∀ k, k < 10 →
    (Nat.digitChar k).isDigit = true ∧ digitVal (Nat.digitChar k) = k := by decide

/-- `parseYear4` inverts `pad4` on years up to 9999. -/
theorem parseYear4_pad4 (y : Nat) (hy : y ≤ 9999) (rest : List Char) :
    parseYear4 (pad4 y ++ rest) = some (y, rest) := by
  have h1 := digitChar_spec (y / 1000 % 10) (Nat.mod_lt _ (by norm_num))
  have h2 := digitChar_spec (y / 100 % 10) (Nat.mod_lt _ (by norm_num))
  have h3 := digitChar_spec (y / 10 % 10) (Nat.mod_lt _ (by norm_num))
  have h4 := digitChar_spec (y % 10) (Nat.mod_lt _ (by norm_num))
  simp only [pad4, List.cons_append, List.nil_append, parseYear4, h1.1, h2.1, h3.1, h4.1,
    and_self, if_true, h1.2, h2.2, h3.2, h4.2, Option.some.injEq, Prod.mk.injEq, and_true]
  omega

/-- `parseMonth2` inverts `pad2` on months 1-12. -/
theorem parseMonth2_pad2 (m : Nat) (h1 : 1 ≤ m) (h2 : m ≤ 12) (rest : List Char) :
    parseMonth2 (pad2 m ++ rest) = some (m, rest) := by
  interval_cases m <;> rfl

/-- `parseDay2` inverts `pad2` on days 1-31. -/
theorem parseDay2_pad2 (d : Nat) (h1 : 1 ≤ d) (h2 : d ≤ 31) (rest : List Char) :
    parseDay2 (pad2 d ++ rest) = some (d, rest) := by
  interval_cases d <;> rfl

/-- `parseHour2` inverts `pad2` on hours 0-23. -/
theorem parseHour2_pad2 (h : Nat) (h2 : h ≤ 23) (rest : List Char) :
    parseHour2 (pad2 h ++ rest) = some (h, rest) := by
  interval_cases h <;> rfl

/-- `parseMinSec` inverts `pad2` on values 0-59. -/
theorem parseMinSec_pad2 (v : Nat) (h2 : v ≤ 59) (rest : List Char) :
    parseMinSec (pad2 v ++ rest) = some (v, rest) := by
  interval_cases v <;> rfl

/-- A decimal digit character is not whitespace. -/
theorem isPySpace_digitChar : ∀ k, k < 10 → isPySpace (Nat.digitChar k) = false := by
  decide

/-- The whitespace matcher consumes a single space when what follows is a
zero-padded two-digit field. -/
theorem parseSpaces_pad2 (v : Nat) (l : List Char) :
    parseSpaces (' ' :: (pad2 v ++ l)) = some (pad2 v ++ l) := by
  have h1 := isPySpace_digitChar (v / 10 % 10) (Nat.mod_lt _ (by norm_num))
  have hsp : isPySpace ' ' = true := by decide
  simp [pad2, parseSpaces, munchSpaces, h1, hsp]

/-- Parsing inverts formatting on every valid second-precision UTC
calendar time: the fixed-format `strptime` model recovers exactly the
fields that the fixed-format `strftime` model printed. -/
theorem strptime_strftime (y mo d h mi s : Nat)
    (hy1 : 1 ≤ y) (hy2 : y ≤ 9999) (hmo1 : 1 ≤ mo) (hmo2 : mo ≤ 12)
    (hd1 : 1 ≤ d) (hd2 : d ≤ daysInMonth (isLeap y) mo)
    (hh : h ≤ 23) (hmi : mi ≤ 59) (hs : s ≤ 59) :
    strptimeISO (strftimeISO ⟨y, mo, d, h, mi, s, 0⟩) = some ⟨y, mo, d, h, mi, s, 0⟩ := by
  have hd31 : d ≤ 31 := le_trans hd2 (daysInMonth_le_31 _ _)
  simp only [strptimeISO, strftimeISO]
  simp [parseYear4_pad4 y hy2, parseMonth2_pad2 mo hmo1 hmo2, parseDay2_pad2 d hd1 hd31,
    parseSpaces_pad2 h, parseHour2_pad2 h hh, parseMinSec_pad2 mi hmi,
    parseMinSec_pad2 s hs, expectChar, hy1, hd2]

set_option maxRecDepth 4000 in
/-- The month-correction loop is correct on every day-of-year below 365:
it finds the month and zero-based day the preceding-days table assigns,
with the day within the month's length.  (Day 365 of a leap year is the
special-cased December 31 and never reaches the loop.) -/
theorem monthFix_spec (leap : Bool) (j : Nat) (hj : j < 365) :
    daysBeforeMonth leap (monthFix leap j ((j + 50) >>> 5)).1 +
      (monthFix leap j ((j + 50) >>> 5)).2 = j ∧
    1 ≤ (monthFix leap j ((j + 50) >>> 5)).1 ∧
    (monthFix leap j ((j + 50) >>> 5)).1 ≤ 12 ∧
    (monthFix leap j ((j + 50) >>> 5)).2 + 1 ≤
      daysInMonth leap (monthFix leap j ((j + 50) >>> 5)).1 := by
  revert hj
  revert j
  cases leap
  · decide
  · decide

/-- Existential packaging of `monthFix_spec` that names the month, the
zero-based day and the two table lookups, so later arithmetic can treat
them as opaque numbers. -/
theorem monthFix_spec_ex (leap : Bool) (j : Nat) (hj : j < 365) :
    ∃ M R DB DM, monthFix leap j ((j + 50) >>> 5) = (M, R) ∧
      daysBeforeMonth leap M = DB ∧ daysInMonth leap M = DM ∧
      DB + R = j ∧ 1 ≤ M ∧ M ≤ 12 ∧ R + 1 ≤ DM := by
  obtain ⟨h1, h2, h3, h4⟩ := monthFix_spec leap j hj
  exact ⟨_, _, _, _, rfl, rfl, rfl, h1, h2, h3, h4⟩

/-- Arithmetic core of the `_ord2ymd` special case (last day of a 4-year
or 400-year cycle): the reconstructed year is a leap year, December 31 of
it has the given ordinal, and the year is within range. -/
theorem ordArith_special (n y : Nat) (h1 : 1 ≤ n) (h2 : n ≤ 3652059)
    (hy : (n-1)/146097*400 + 1 + (n-1)%146097/36524*100 + (n-1)%146097%36524/1461*4
          + (n-1)%146097%36524%1461/365 - 1 = y)
    (hcond : (n-1)%146097%36524%1461/365 = 4 ∨ (n-1)%146097/36524 = 4) :
    ((y-1)*365 + (y-1)/4 - (y-1)/100 + (y-1)/400 + 366 = n) ∧
    (y % 4 = 0 ∧ (y % 100 ≠ 0 ∨ y % 400 = 0)) ∧ 1 ≤ y ∧ y ≤ 9999 := by
  rcases hcond with hq1 | hq100
  · have h1460 : (n-1)%146097%36524%1461 = 1460 := by omega
    have hq4le : (n-1)%146097%36524/1461 ≤ 23 := by omega
    have hq100le : (n-1)%146097/36524 ≤ 3 := by omega
    have hyv : y = 400*((n-1)/146097) + 100*((n-1)%146097/36524)
        + 4*((n-1)%146097%36524/1461) + 4 := by omega
    have e4 : (y-1)/4 = 100*((n-1)/146097) + 25*((n-1)%146097/36524)
        + ((n-1)%146097%36524/1461) := by omega
    have e100 : (y-1)/100 = 4*((n-1)/146097) + ((n-1)%146097/36524) := by omega
    have e400 : (y-1)/400 = (n-1)/146097 := by omega
    omega
  · have ha : (n-1)%146097 = 146096 := by omega
    have hyv : y = 400*((n-1)/146097) + 400 := by omega
    have e4 : (y-1)/4 = 100*((n-1)/146097) + 99 := by omega
    have e100 : (y-1)/100 = 4*((n-1)/146097) + 3 := by omega
    have e400 : (y-1)/400 = (n-1)/146097 := by omega
    omega

/-- Arithmetic core of the `_ord2ymd` generic case: the leap-year flag
computed from the cycle counts agrees with the leap-year test on the
reconstructed year. -/
theorem ordArith_leapiff (n y : Nat) (h2 : n ≤ 3652059)
    (hy : (n-1)/146097*400 + 1 + (n-1)%146097/36524*100 + (n-1)%146097%36524/1461*4
          + (n-1)%146097%36524%1461/365 = y)
    (hn1 : (n-1)%146097%36524%1461/365 ≠ 4) (hn100 : (n-1)%146097/36524 ≠ 4) :
    ((y % 4 = 0 ∧ (y % 100 ≠ 0 ∨ y % 400 = 0)) ↔
     ((n-1)%146097%36524%1461/365 = 3 ∧
      ((n-1)%146097%36524/1461 ≠ 24 ∨ (n-1)%146097/36524 = 3))) := by
  have hq1le : (n-1)%146097%36524%1461/365 ≤ 3 := by omega
  have hq4le : (n-1)%146097%36524/1461 ≤ 24 := by omega
  have hq100le : (n-1)%146097/36524 ≤ 3 := by omega
  omega

/-- Arithmetic core of the `_ord2ymd` generic case: the days-before-year
total plus the days-before-month lookup plus the one-based day
reconstructs the ordinal, and the reconstructed year is within range. -/
theorem ordArith_generic (n y DB R : Nat) (h1 : 1 ≤ n) (h2 : n ≤ 3652059)
    (hy : (n-1)/146097*400 + 1 + (n-1)%146097/36524*100 + (n-1)%146097%36524/1461*4
          + (n-1)%146097%36524%1461/365 = y)
    (hn1 : (n-1)%146097%36524%1461/365 ≠ 4) (hn100 : (n-1)%146097/36524 ≠ 4)
    (hsum : DB + R = (n-1)%146097%36524%1461%365) :
    ((y-1)*365 + (y-1)/4 - (y-1)/100 + (y-1)/400 + DB + (R + 1) = n) ∧
    1 ≤ y ∧ y ≤ 9999 := by
  have hq1le : (n-1)%146097%36524%1461/365 ≤ 3 := by omega
  have hq4le : (n-1)%146097%36524/1461 ≤ 24 := by omega
  have hq100le : (n-1)%146097/36524 ≤ 3 := by omega
  have e4 : (y-1)/4 = 100*((n-1)/146097) + 25*((n-1)%146097/36524)
      + ((n-1)%146097%36524/1461) := by omega
  have e100 : (y-1)/100 = 4*((n-1)/146097) + ((n-1)%146097/36524) := by omega
  have e400 : (y-1)/400 = (n-1)/146097 := by omega
  omega

/-- `_ymd2ord` inverts `_ord2ymd` on every representable ordinal, and
`_ord2ymd` returns a valid date with the year in 1-9999. -/
theorem ord2ymd_spec (n : Nat) (h1 : 1 ≤ n) (h2 : n ≤ MAX_ORD) :
    ymd2ord (ord2ymd n).1 (ord2ymd n).2.1 (ord2ymd n).2.2 = n ∧
    1 ≤ (ord2ymd n).1 ∧ (ord2ymd n).1 ≤ 9999 ∧
    1 ≤ (ord2ymd n).2.1 ∧ (ord2ymd n).2.1 ≤ 12 ∧
    1 ≤ (ord2ymd n).2.2 ∧
    (ord2ymd n).2.2 ≤ daysInMonth (isLeap (ord2ymd n).1) (ord2ymd n).2.1 := by
  obtain ⟨y, m, d, hymd⟩ : ∃ y m d, ord2ymd n = (y, m, d) := ⟨_, _, _, rfl⟩
  rw [hymd]
  dsimp only
  unfold ord2ymd at hymd
  dsimp only at hymd
  rw [MAX_ORD] at h2
  split at hymd
  case isTrue hcond =>
    rw [Prod.mk.injEq, Prod.mk.injEq] at hymd
    obtain ⟨hy, hm, hd⟩ := hymd
    subst hm; subst hd
    simp only [Bool.or_eq_true, beq_iff_eq] at hcond
    have key := ordArith_special n y h1 h2 hy hcond
    have hleap : isLeap y = true := by
      simp only [isLeap, Bool.and_eq_true, beq_iff_eq, Bool.or_eq_true, bne_iff_ne]
      exact key.2.1
    have hdbm : daysBeforeMonth (isLeap y) 12 = 335 := by rw [hleap]; decide
    have hdim : daysInMonth (isLeap y) 12 = 31 := by rw [hleap]; decide
    refine ⟨?_, key.2.2.1, key.2.2.2, by norm_num, by norm_num, by norm_num, by omega⟩
    unfold ymd2ord daysBeforeYear
    rw [hdbm]
    omega
  case isFalse hcond =>
    simp only [Bool.or_eq_true, beq_iff_eq, not_or] at hcond
    obtain ⟨hn1, hn100⟩ := hcond
    have hrf : (n - 1) % 146097 % 36524 % 1461 % 365 < 365 := Nat.mod_lt _ (by norm_num)
    obtain ⟨M, R, DB, DM, hMR, hDB, hDM, hsum, hm1, hm2, hdim⟩ :=
      monthFix_spec_ex ((n - 1) % 146097 % 36524 % 1461 / 365 == 3 &&
        ((n - 1) % 146097 % 36524 / 1461 != 24 || (n - 1) % 146097 / 36524 == 3))
        ((n - 1) % 146097 % 36524 % 1461 % 365) hrf
    rw [hMR] at hymd
    dsimp only at hymd
    rw [Prod.mk.injEq, Prod.mk.injEq] at hymd
    obtain ⟨hy, hm, hd⟩ := hymd
    subst hm; subst hd
    have hleap : isLeap y =
        ((n - 1) % 146097 % 36524 % 1461 / 365 == 3 &&
          ((n - 1) % 146097 % 36524 / 1461 != 24 || (n - 1) % 146097 / 36524 == 3)) := by
      rw [Bool.eq_iff_iff]
      simp only [isLeap, Bool.and_eq_true, beq_iff_eq, Bool.or_eq_true, bne_iff_ne]
      exact ordArith_leapiff n y h2 hy hn1 hn100
    have key := ordArith_generic n y DB R h1 h2 hy hn1 hn100 hsum
    refine ⟨?_, key.2.1, key.2.2, hm1, hm2, Nat.le_add_left 1 R, ?_⟩
    · unfold ymd2ord daysBeforeYear
      rw [hleap, hDB]
      exact key.1
    · rw [hleap, hDM]
      exact hdim

/-- `utcfromtimestamp` succeeds on every representable non-negative
timestamp, produces a valid second-precision UTC calendar time, and
`timegm` maps that calendar time back to the timestamp. -/
theorem utcfromtimestamp_spec (t : Nat) (ht : t ≤ 253402300799) :
    ∃ dt, utcfromtimestamp t = some dt ∧
      timegm dt.year dt.month dt.day dt.hour dt.minute dt.second = (t : Int) ∧
      1 ≤ dt.year ∧ dt.year ≤ 9999 ∧ 1 ≤ dt.month ∧ dt.month ≤ 12 ∧
      1 ≤ dt.day ∧ dt.day ≤ daysInMonth (isLeap dt.year) dt.month ∧
      dt.hour ≤ 23 ∧ dt.minute ≤ 59 ∧ dt.second ≤ 59 ∧ dt.microsecond = 0 := by
  have hn1 : 1 ≤ EPOCH_ORD + t / 86400 := by rw [EPOCH_ORD]; omega
  have hn2 : EPOCH_ORD + t / 86400 ≤ MAX_ORD := by rw [EPOCH_ORD, MAX_ORD]; omega
  obtain ⟨hrt, hy1, hy2, hm1, hm2, hd1, hd2⟩ := ord2ymd_spec (EPOCH_ORD + t / 86400) hn1 hn2
  have hutc : utcfromtimestamp t = some ⟨(ord2ymd (EPOCH_ORD + t / 86400)).1,
      (ord2ymd (EPOCH_ORD + t / 86400)).2.1, (ord2ymd (EPOCH_ORD + t / 86400)).2.2,
      t % 86400 / 3600, t % 86400 % 3600 / 60, t % 86400 % 60, 0⟩ := by
    unfold utcfromtimestamp
    dsimp only
    rw [if_pos hn2]
  refine ⟨_, hutc, ?_, hy1, hy2, hm1, hm2, hd1, ?_, ?_, ?_, ?_, rfl⟩
  · have hord : ymd2ord (ord2ymd (EPOCH_ORD + t / 86400)).1
        (ord2ymd (EPOCH_ORD + t / 86400)).2.1 1 + (ord2ymd (EPOCH_ORD + t / 86400)).2.2
        = EPOCH_ORD + t / 86400 + 1 := by
      unfold ymd2ord at hrt ⊢
      omega
    rw [EPOCH_ORD] at hord
    simp only [timegm, EPOCH_ORD]
    omega
  · exact hd2
  · show t % 86400 / 3600 ≤ 23
    omega
  · show t % 86400 % 3600 / 60 ≤ 59
    omega
  · show t % 86400 % 60 ≤ 59
    omega

/-- The format's literal space matches any nonempty whitespace run, and
`%d` accepts a space-padded day, exactly as CPython's `strptime`: a
double space, a tab and a space-padded day all parse, yielding epoch 0. -/
theorem strptime_whitespace_run :
    ISO8601_to_UNIXtime (.str "1970-01-01  00:00:00+00") = .ok 0 ∧
    ISO8601_to_UNIXtime (.str "1970-01-01\t00:00:00+00") = .ok 0 ∧
    ISO8601_to_UNIXtime (.str "1970-01- 1 00:00:00+00") = .ok 0 :=
  ⟨rfl, rfl, rfl⟩

/-! ### The claims -/

/-- Claim C1: for every non-negative integer `e` within the representable
calendar range, converting `e` to an ISO8601 string with
`UNIXtime_to_ISO8601` and parsing that string back with
`ISO8601_to_UNIXtime` yields exactly `e`. -/
theorem roundtrip_epoch_iso (e : Int) (h0 : 0 ≤ e) (h1 : e ≤ 253402300799) :
    (UNIXtime_to_ISO8601 (.int e)).bind (fun s => ISO8601_to_UNIXtime (.str s)) =
      .ok e := by
  have ht : e.toNat ≤ 253402300799 := by omega
  obtain ⟨dt, hutc, htg, hy1, hy2, hm1, hm2, hd1, hd2, hh, hmi, hs, hus⟩ :=
    utcfromtimestamp_spec e.toNat ht
  obtain ⟨Y, MO, D, H, MI, S, US⟩ := dt
  dsimp only at htg hy1 hy2 hm1 hm2 hd1 hd2 hh hmi hs hus
  subst hus
  unfold UNIXtime_to_ISO8601
  dsimp only
  rw [if_neg (not_lt.mpr h0), hutc]
  show ISO8601_to_UNIXtime (.str (strftimeISO ⟨Y, MO, D, H, MI, S, 0⟩)) = .ok e
  unfold ISO8601_to_UNIXtime
  dsimp only
  rw [strptime_strftime Y MO D H MI S hy1 hy2 hm1 hm2 hd1 hd2 hh hmi hs]
  show Except.ok (timegm Y MO D H MI S) = .ok e
  rw [htg, Int.toNat_of_nonneg h0]

/-- Claim C1, witness at `e = 0`. -/
theorem roundtrip_epoch_iso_witness :
    (UNIXtime_to_ISO8601 (.int 0)).bind (fun s => ISO8601_to_UNIXtime (.str s)) =
      .ok 0 :=
  roundtrip_epoch_iso 0 (by norm_num) (by norm_num)

/-- Claim C2, counterexample: `to_UNIXtime` accepts an epoch-time input
but returns the negative integer `-1` unchanged instead of raising a
`ValueError`. -/
theorem to_UNIXtime_negative_counterexample :
    to_UNIXtime (.int (-1)) = .ok (-1) ∧
    to_UNIXtime (.int (-1)) ≠ .error .valueError :=
  ⟨rfl, fun h => nomatch h⟩

/-- Claim C2 as amended: `UNIXtime_to_ISO8601` rejects a negative epoch
value with a `ValueError` before any computation, but `to_UNIXtime` does
not validate the sign: it returns every negative integer unchanged. -/
theorem negative_epoch_amended (n : Int) (h : n < 0) :
    UNIXtime_to_ISO8601 (.int n) = .error .valueError ∧
    to_UNIXtime (.int n) = .ok n :=
  ⟨by unfold UNIXtime_to_ISO8601; dsimp only; rw [if_pos h], rfl⟩

/-- Claim C2 as amended, witness at `n = -5`. -/
theorem negative_epoch_amended_witness :
    UNIXtime_to_ISO8601 (.int (-5)) = .error .valueError ∧
    to_UNIXtime (.int (-5)) = .ok (-5) :=
  negative_epoch_amended (-5) (by norm_num)

/-- Claim C3: on every non-negative numeric input (integer or float),
`kelvin_to_celsius` returns `k - 273.15` rounded to exactly two decimal
places (Python floats idealised as rationals, `round` as round half to
even at the second decimal). -/
theorem kelvin_to_celsius_rounds (v : PyVal) (k : ℚ) (hv : numVal v = some k)
    (hk : 0 ≤ k) : kelvin_to_celsius v = .ok (pyRound2 (k - 273.15)) := by
  unfold kelvin_to_celsius
  rw [hv]
  dsimp only
  rw [if_neg (not_lt.mpr hk)]
  unfold floatFormat2 pyRound2 KELVIN_OFFSET
  rw [mul_comm (100 : ℚ) (k - 273.15)]

/-- Claim C3, witness: `kelvin_to_celsius 0 = -273.15`. -/
theorem kelvin_to_celsius_rounds_witness :
    kelvin_to_celsius (.int 0) = .ok (-273.15) := by
  have h := kelvin_to_celsius_rounds (.int 0) ((0 : Int) : ℚ) rfl (by norm_num)
  rw [h]
  norm_num [pyRound2, roundHalfEven]

/-- Claim C4: on every non-negative numeric input (integer or float),
`kelvin_to_fahrenheit` returns `(k - 273.15) * 1.8 + 32.0` rounded to
exactly two decimal places (same idealisation as C3). -/
theorem kelvin_to_fahrenheit_rounds (v : PyVal) (k : ℚ) (hv : numVal v = some k)
    (hk : 0 ≤ k) :
    kelvin_to_fahrenheit v = .ok (pyRound2 ((k - 273.15) * 1.8 + 32.0)) := by
  unfold kelvin_to_fahrenheit
  rw [hv]
  dsimp only
  rw [if_neg (not_lt.mpr hk)]
  unfold floatFormat2 pyRound2 KELVIN_OFFSET FAHRENHEIT_DEGREE_SCALE FAHRENHEIT_OFFSET
  rw [mul_comm (100 : ℚ) ((k - 273.15) * 1.8 + 32.0)]

/-- Claim C4, witness at `k = 300`: the result is `80.33`. -/
theorem kelvin_to_fahrenheit_rounds_witness :
    kelvin_to_fahrenheit (.int 300) = .ok (80.33) := by
  have h := kelvin_to_fahrenheit_rounds (.int 300) ((300 : Int) : ℚ) rfl (by norm_num)
  rw [h]
  norm_num [pyRound2, roundHalfEven]

/-- Claim C5: `to_UNIXtime` dispatches on the runtime kind of its input:
integers pass through unchanged, calendar-time values give the same
result as `datetime_to_UNIXtime`, strings give the same result as
`ISO8601_to_UNIXtime`, and any other kind — for example the float
`3.14` — raises a `TypeError`. -/
theorem to_UNIXtime_dispatch :
    (∀ n : Int, to_UNIXtime (.int n) = .ok n) ∧
    (∀ dt : Datetime, to_UNIXtime (.datetime dt) = datetime_to_UNIXtime (.datetime dt)) ∧
    (∀ s : String, to_UNIXtime (.str s) = ISO8601_to_UNIXtime (.str s)) ∧
    (∀ q : ℚ, to_UNIXtime (.float q) = .error .typeError) ∧
    to_UNIXtime (.float (314 / 100)) = .error .typeError :=
  ⟨fun _ => rfl, fun _ => rfl, fun _ => rfl, fun _ => rfl, rfl⟩

/-- Claim C6: both temperature functions raise `TypeError` on every
non-numeric input, raise `ValueError` on every negative numeric input,
and return normally on every non-negative numeric input. -/
theorem kelvin_validation (v : PyVal) :
    (numVal v = none → kelvin_to_celsius v = .error .typeError ∧
      kelvin_to_fahrenheit v = .error .typeError) ∧
    (∀ k : ℚ, numVal v = some k → k < 0 →
      kelvin_to_celsius v = .error .valueError ∧
      kelvin_to_fahrenheit v = .error .valueError) ∧
    (∀ k : ℚ, numVal v = some k → 0 ≤ k →
      (∃ c, kelvin_to_celsius v = .ok c) ∧ ∃ f, kelvin_to_fahrenheit v = .ok f) := by
  refine ⟨fun h => ⟨?_, ?_⟩, fun k hk hneg => ⟨?_, ?_⟩, fun k hk hpos =>
    ⟨⟨floatFormat2 (k - KELVIN_OFFSET), ?_⟩,
     ⟨floatFormat2 ((k - KELVIN_OFFSET) * FAHRENHEIT_DEGREE_SCALE + FAHRENHEIT_OFFSET), ?_⟩⟩⟩
  · unfold kelvin_to_celsius
    rw [h]
  · unfold kelvin_to_fahrenheit
    rw [h]
  · unfold kelvin_to_celsius
    rw [hk]
    dsimp only
    rw [if_pos hneg]
  · unfold kelvin_to_fahrenheit
    rw [hk]
    dsimp only
    rw [if_pos hneg]
  · unfold kelvin_to_celsius
    rw [hk]
    dsimp only
    rw [if_neg (not_lt.mpr hpos)]
  · unfold kelvin_to_fahrenheit
    rw [hk]
    dsimp only
    rw [if_neg (not_lt.mpr hpos)]

/-- Claim C6, witness: `kelvin_to_celsius (-5)` (and likewise
`kelvin_to_fahrenheit (-5)`) raises `ValueError`. -/
theorem kelvin_validation_witness :
    kelvin_to_celsius (.float (-5)) = .error .valueError ∧
    kelvin_to_fahrenheit (.float (-5)) = .error .valueError :=
  (kelvin_validation (.float (-5))).2.1 (-5) rfl (by norm_num)

/-- Claim C7: `UNIXtime_to_ISO8601` raises `TypeError` on every
non-integer input and `ValueError` on every negative integer;
`ISO8601_to_UNIXtime` raises `TypeError` on every non-string input and
`ValueError` on every string the fixed format does not parse — for
example `"not-a-date"`. -/
theorem time_conversion_errors :
    (∀ q : ℚ, UNIXtime_to_ISO8601 (.float q) = .error .typeError) ∧
    (∀ s : String, UNIXtime_to_ISO8601 (.str s) = .error .typeError) ∧
    (∀ dt : Datetime, UNIXtime_to_ISO8601 (.datetime dt) = .error .typeError) ∧
    (∀ n : Int, n < 0 → UNIXtime_to_ISO8601 (.int n) = .error .valueError) ∧
    (∀ n : Int, ISO8601_to_UNIXtime (.int n) = .error .typeError) ∧
    (∀ q : ℚ, ISO8601_to_UNIXtime (.float q) = .error .typeError) ∧
    (∀ dt : Datetime, ISO8601_to_UNIXtime (.datetime dt) = .error .typeError) ∧
    (∀ s : String, strptimeISO s = none → ISO8601_to_UNIXtime (.str s) = .error .valueError) ∧
    ISO8601_to_UNIXtime (.str "not-a-date") = .error .valueError := by
  refine ⟨fun _ => rfl, fun _ => rfl, fun _ => rfl, fun n hn => ?_, fun _ => rfl,
    fun _ => rfl, fun _ => rfl, fun s hs => ?_, rfl⟩
  · unfold UNIXtime_to_ISO8601
    dsimp only
    rw [if_pos hn]
  · unfold ISO8601_to_UNIXtime
    dsimp only
    rw [hs]

/-- Claim C7, witness: `UNIXtime_to_ISO8601 (-1)` raises `ValueError`,
and the empty string fails the fixed-format parse with `ValueError`. -/
theorem time_conversion_errors_witness :
    UNIXtime_to_ISO8601 (.int (-1)) = .error .valueError ∧
    ISO8601_to_UNIXtime (.str "") = .error .valueError :=
  ⟨time_conversion_errors.2.2.2.1 (-1) (by norm_num),
   time_conversion_errors.2.2.2.2.2.2.2.1 "" rfl⟩

/-- Claim C8: `UNIXtime_to_ISO8601 0` returns exactly
`"1970-01-01 00:00:00+00"`: epoch zero converted to UTC calendar time
and printed in the fixed format. -/
theorem epoch_zero_iso :
    UNIXtime_to_ISO8601 (.int 0) = .ok "1970-01-01 00:00:00+00" := by rfl

/-- Claim C9: `to_UNIXtime` is idempotent on successful inputs: whenever
it returns a value `w` without error, `w` is an integer (the function's
result type) and `to_UNIXtime w = w`. -/
theorem to_UNIXtime_idempotent (v : PyVal) (w : Int)
    (h : to_UNIXtime v = .ok w) : to_UNIXtime (.int w) = .ok w := rfl

/-- Claim C9, witness at `v = 42`. -/
theorem to_UNIXtime_idempotent_witness : to_UNIXtime (.int 42) = .ok 42 :=
  to_UNIXtime_idempotent (.int 42) 42 rfl

/-- Claim C10: `datetime_to_UNIXtime` ignores sub-second precision: two
calendar-time values agreeing on year, month, day, hour, minute and
second give the same epoch even if their microsecond fields differ. -/
theorem calendar_to_epoch_subsecond (d1 d2 : Datetime)
    (hy : d1.year = d2.year) (hmo : d1.month = d2.month) (hd : d1.day = d2.day)
    (hh : d1.hour = d2.hour) (hmi : d1.minute = d2.minute)
    (hs : d1.second = d2.second) :
    datetime_to_UNIXtime (.datetime d1) = datetime_to_UNIXtime (.datetime d2) := by
  unfold datetime_to_UNIXtime
  dsimp only
  rw [hy, hmo, hd, hh, hmi, hs]

/-- Claim C10, witness: equal fields down to seconds, microseconds 0 and
999999. -/
theorem calendar_to_epoch_subsecond_witness :
    datetime_to_UNIXtime (.datetime ⟨2021, 6, 15, 12, 30, 45, 0⟩) =
    datetime_to_UNIXtime (.datetime ⟨2021, 6, 15, 12, 30, 45, 999999⟩) :=
  calendar_to_epoch_subsecond _ _ rfl rfl rfl rfl rfl rfl

end Pyowm
